import Mathlib

/-!
Verification of the HTTP server in `src/main.rs` (codecrafters-http-server-rust).

The server core is embedded shallowly:
* byte sequences (`Vec<u8>`) become `List Nat`;
* Rust strings become `List Char` (the input stream is assumed UTF-8 valid;
  body bytes are taken from the UTF-8 encoding of the stream's tail);
* the gzip compressor from the external `flate2` crate is an explicit
  function parameter `gz : List Nat → List Nat` — every property proved here
  holds for an arbitrary compressor, matching the fact that the repository
  only calls into the library;
* the filesystem is an association list from paths to contents;
* fallible operations return `Except Unit`.
-/

/-- UTF-8 encoding of a single character, as in Rust `str::as_bytes`. -/
def utf8Char (c : Char) : List Nat :=
  let n := c.toNat
  if n < 0x80 then [n]
  else if n < 0x800 then [0xC0 + n / 0x40, 0x80 + n % 0x40]
  else if n < 0x10000 then
    [0xE0 + n / 0x1000, 0x80 + (n / 0x40) % 0x40, 0x80 + n % 0x40]
  else
    [0xF0 + n / 0x40000, 0x80 + (n / 0x1000) % 0x40, 0x80 + (n / 0x40) % 0x40,
     0x80 + n % 0x40]

/-- UTF-8 bytes of a character sequence (Rust `str::as_bytes`). -/
def strBytes : List Char → List Nat
  | [] => []
  | c :: cs => utf8Char c ++ strBytes cs

/-- Rust `str::trim`: drop whitespace from both ends. -/
def rsTrim (l : List Char) : List Char :=
  ((l.dropWhile Char.isWhitespace).reverse.dropWhile Char.isWhitespace).reverse

/-- Rust `str::to_lowercase` (ASCII fragment, which is all the code relies on). -/
def rsToLower (l : List Char) : List Char :=
  l.map Char.toLower

/-- Split at every character satisfying `p`, keeping empty segments. -/
def splitPAux (p : Char → Bool) : List Char → List Char → List (List Char)
  | [], acc => [acc.reverse]
  | x :: xs, acc =>
    if p x then acc.reverse :: splitPAux p xs []
    else splitPAux p xs (x :: acc)

/-- Split at every character satisfying `p`. -/
def splitP (p : Char → Bool) (l : List Char) : List (List Char) :=
  splitPAux p l []

/-- Rust `str::split_whitespace`: whitespace-delimited tokens, no empties. -/
def splitWS (l : List Char) : List (List Char) :=
  (splitP Char.isWhitespace l).filter (fun t => t ≠ [])

/-- Rust `str::split(',')` (keeps empty segments). -/
def splitComma (l : List Char) : List (List Char) :=
  splitP (fun c => c = ',') l

/-- Drop one trailing carriage return, as Rust `str::lines` does per line. -/
def stripCR (l : List Char) : List Char :=
  if l.getLast? = some '\r' then l.dropLast else l

/-- Rust `str::lines`: split on newline, strip a trailing CR from each line,
and ignore a final empty segment produced by a trailing newline. -/
def rsLines (l : List Char) : List (List Char) :=
  if l = [] then []
  else
    let parts := splitP (fun c => c = '\n') l
    let parts := if parts.getLast? = some [] then parts.dropLast else parts
    parts.map stripCR

/-- Rust `str::parse::<usize>`: optional leading plus sign, then one or more
decimal digits, rejecting overflow past `usize::MAX` (64-bit target). -/
def parseUsize (l : List Char) : Option Nat :=
  let digits := match l with
    | '+' :: rest => rest
    | _ => l
  if digits = [] then none
  else if digits.all Char.isDigit then
    let n := digits.foldl (fun a c => a * 10 + (c.toNat - 48)) 0
    if n < 2 ^ 64 then some n else none
  else none

/-- Status-line constant `OK_HEADER` from `main.rs` (note: it already contains
a blank line after the status line). -/
def OK_HEADER : List Char := "HTTP/1.1 200 OK\r\n\r\n".data

/-- Status-line constant `CREATED_HEADER` from `main.rs`. -/
def CREATED_HEADER : List Char := "HTTP/1.1 201 Created\r\n\r\n".data

/-- Status-line constant `NOT_FOUND_HEADER` from `main.rs`. -/
def NOT_FOUND_HEADER : List Char := "HTTP/1.1 404 Not Found\r\n\r\n".data

/-- Status-line constant `METHOD_NOT_ALLOWED_HEADER` from `main.rs`. -/
def METHOD_NOT_ALLOWED_HEADER : List Char := "HTTP/1.1 405 Method Not Allowed\r\n".data

/-- The `Response` struct of `main.rs`. -/
structure Response where
  status_line : List Char
  headers : List (List Char × List Char)
  body : List Nat
deriving DecidableEq

/-- The header-serialization loop inside `Response::build`: each pair becomes
the bytes of `format!("{}: {}\r\n", key, value)`. -/
def buildHeaders : List (List Char × List Char) → List Nat
  | [] => []
  | (k, v) :: hs => strBytes (k ++ (": ".data ++ (v ++ "\r\n".data))) ++ buildHeaders hs

/-- `Response::build`: status-line bytes, serialized headers, CRLF, body. -/
def Response.build (r : Response) : List Nat :=
  strBytes r.status_line ++ buildHeaders r.headers ++ [13, 10] ++ r.body

/-- The filesystem seen by the handlers: an association list from paths to
file contents; the head entry for a path is its current content. -/
abbrev FS := List (List Char × List Nat)

/-- File lookup (models `Path::exists` / `File::open` + `read_to_end`). -/
def fsLookup (fs : FS) (p : List Char) : Option (List Nat) :=
  fs.lookup p

/-- File creation/truncation (models `File::create` + `write_all`). -/
def fsWrite (fs : FS) (p : List Char) (contents : List Nat) : FS :=
  (p, contents) :: fs

/-- Rust `Path::new(directory).join(filename)`: an absolute `filename`
replaces the directory entirely; otherwise the two are joined with a
separator unless one is already present. -/
def pathJoin (dir fname : List Char) : List Char :=
  if fname.head? = some '/' then fname
  else if dir = [] then fname
  else if dir.getLast? = some '/' then dir ++ fname
  else dir ++ '/' :: fname

/-- `supports_gzip` from `main.rs`: find the first header line whose
lowercasing starts with `accept-encoding:`, split the rest of that line on
commas, trim each token, and look for an exact `gzip` token. -/
def supports_gzip (headers : List Char) : Bool :=
  match (rsLines headers).find?
      (fun line => "accept-encoding:".data.isPrefixOf (rsToLower line)) with
  | none => false
  | some line =>
    ((splitComma (line.drop 16)).map rsTrim).any (fun enc => enc = "gzip".data)

/-- `extract_user_agent` from `main.rs`: first header line whose lowercasing
starts with `user-agent:`, with the 11-character name sliced off and the
value trimmed; empty when no such line exists. -/
def extract_user_agent (headers : List Char) : List Char :=
  match (rsLines headers).find?
      (fun line => "user-agent:".data.isPrefixOf (rsToLower line)) with
  | none => []
  | some line => rsTrim (line.drop 11)

/-- The Content-Length computation inside `read_body` of `main.rs`: first
header line whose lowercasing starts with `content-length:`, second
whitespace token, parsed as `usize`; zero on absence or parse failure. -/
def contentLength (headers : List Char) : Nat :=
  match (rsLines headers).find?
      (fun line => "content-length:".data.isPrefixOf (rsToLower line)) with
  | none => 0
  | some line =>
    match (splitWS line).get? 1 with
    | none => 0
    | some tok => (parseUsize tok).getD 0

/-- `serve_echo` from `main.rs` (with the `flate2` compressor abstracted as
`gz`): body is the path suffix after `/echo/`, compressed when negotiated. -/
def serve_echo (gz : List Nat → List Nat) (path headers : List Char) : Response :=
  let echo_str := path.drop 6
  let response_body := strBytes echo_str
  if supports_gzip headers then
    let compressed := gz response_body
    { status_line := "HTTP/1.1 200 OK\r\n".data
      headers := [("Content-Type".data, "text/plain".data),
                  ("Content-Encoding".data, "gzip".data),
                  ("Content-Length".data, (Nat.repr compressed.length).data)]
      body := compressed }
  else
    { status_line := "HTTP/1.1 200 OK\r\n".data
      headers := [("Content-Type".data, "text/plain".data),
                  ("Content-Length".data, (Nat.repr response_body.length).data)]
      body := response_body }

/-- `serve_user_agent` from `main.rs`, taking the already-extracted
user-agent value, as in the source. -/
def serve_user_agent (gz : List Nat → List Nat) (user_agent headers : List Char) :
    Response :=
  let response_body := strBytes user_agent
  if supports_gzip headers then
    let compressed := gz response_body
    { status_line := "HTTP/1.1 200 OK\r\n".data
      headers := [("Content-Type".data, "text/plain".data),
                  ("Content-Encoding".data, "gzip".data),
                  ("Content-Length".data, (Nat.repr compressed.length).data)]
      body := compressed }
  else
    { status_line := "HTTP/1.1 200 OK\r\n".data
      headers := [("Content-Type".data, "text/plain".data),
                  ("Content-Length".data, (Nat.repr response_body.length).data)]
      body := response_body }

/-- `serve_file` from `main.rs`, taking the file contents already read (the
model filesystem has no open/read races). -/
def serve_file (gz : List Nat → List Nat) (contents : List Nat)
    (headers : List Char) : Response :=
  if supports_gzip headers then
    let compressed := gz contents
    { status_line := "HTTP/1.1 200 OK\r\n".data
      headers := [("Content-Type".data, "application/octet-stream".data),
                  ("Content-Encoding".data, "gzip".data),
                  ("Content-Length".data, (Nat.repr compressed.length).data)]
      body := compressed }
  else
    { status_line := "HTTP/1.1 200 OK\r\n".data
      headers := [("Content-Type".data, "application/octet-stream".data),
                  ("Content-Length".data, (Nat.repr contents.length).data)]
      body := contents }

/-- `handle_get` from `main.rs`: route on the path in source order. -/
def handle_get (gz : List Nat → List Nat) (path headers directory : List Char)
    (fs : FS) : Response :=
  if "/files/".data.isPrefixOf path then
    let filename := path.drop 7
    let filepath := pathJoin directory filename
    match fsLookup fs filepath with
    | some contents => serve_file gz contents headers
    | none => { status_line := NOT_FOUND_HEADER, headers := [], body := [] }
  else if path = "/user-agent".data then
    serve_user_agent gz (extract_user_agent headers) headers
  else if "/echo/".data.isPrefixOf path then
    serve_echo gz path headers
  else if path = "/".data then
    { status_line := OK_HEADER, headers := [], body := [] }
  else
    { status_line := NOT_FOUND_HEADER, headers := [], body := [] }

/-- `handle_post` from `main.rs`: write the body under `/files/`, otherwise
405; returns the response together with the updated filesystem. -/
def handle_post (path : List Char) (body : List Nat) (directory : List Char)
    (fs : FS) : Response × FS :=
  if "/files/".data.isPrefixOf path then
    let filename := path.drop 7
    let filepath := pathJoin directory filename
    ({ status_line := CREATED_HEADER, headers := [], body := [] },
     fsWrite fs filepath body)
  else
    ({ status_line := METHOD_NOT_ALLOWED_HEADER, headers := [], body := [] }, fs)

/-- `BufRead::read_line`: consume up to and including the first newline; at
end of stream return whatever remains (success, as in Rust). -/
def readLine : List Char → List Char × List Char
  | [] => ([], [])
  | c :: rest =>
    if c = '\n' then ([c], rest)
    else
      let (l, r) := readLine rest
      (c :: l, r)

/-- The header loop of `parse_request`, structurally: the second argument
accumulates the current line in reverse.  A completed line (ending in the
newline just seen, or cut short by end of stream) that trims to empty ends
the loop; other lines are stored verbatim, newline included, exactly as the
Rust loop pushes each `read_line` result. -/
def readHeadersAux : List Char → List Char → List Char × List Char
  | [], acc =>
    (if rsTrim acc.reverse = [] then [] else acc.reverse, [])
  | c :: rest, acc =>
    if c = '\n' then
      let line := acc.reverse ++ ['\n']
      if rsTrim line = [] then ([], rest)
      else
        let pr := readHeadersAux rest []
        (line ++ pr.1, pr.2)
    else readHeadersAux rest (c :: acc)

/-- The header loop of `parse_request`: read lines until one trims to empty
(a blank line, or end of stream), concatenating the raw lines read. -/
def readHeaders (s : List Char) : List Char × List Char :=
  readHeadersAux s []

/-- `parse_request` from `main.rs`: one request line split on whitespace
(missing tokens become empty), then the raw header block; returns the parsed
triple and the unconsumed remainder of the stream.  In this embedding the
only failure mode of Rust `read_line` (an I/O or encoding error) cannot
occur, so the function is total. -/
def parse_request (s : List Char) : (List Char × List Char × List Char) × List Char :=
  let (rl, rest) := readLine s
  let request_line := rsTrim rl
  let toks := splitWS request_line
  let method := (toks.get? 0).getD []
  let path := (toks.get? 1).getD []
  let (headers, rest2) := readHeaders rest
  ((method, path, headers), rest2)

/-- `read_body` from `main.rs`: take exactly the declared number of bytes
from the remainder of the stream, failing as `read_exact` does when the
stream is too short. -/
def read_body (headers rest : List Char) : Except Unit (List Nat) :=
  let len := contentLength headers
  let bs := strBytes rest
  if len ≤ bs.length then Except.ok (bs.take len) else Except.error ()

/-- `handle_client` from `main.rs`: parse, read the body, dispatch on the
method, and serialize; errors propagate with nothing written.  Returns the
wire bytes together with the possibly-updated filesystem. -/
def handle_client (gz : List Nat → List Nat) (fs : FS) (directory stream : List Char) :
    Except Unit (List Nat × FS) :=
  let pr := parse_request stream
  let method := pr.1.1
  let path := pr.1.2.1
  let headers := pr.1.2.2
  match read_body headers pr.2 with
  | Except.error e => Except.error e
  | Except.ok body =>
    if method = "POST".data then
      let (resp, fs2) := handle_post path body directory fs
      Except.ok (resp.build, fs2)
    else if method = "GET".data then
      Except.ok ((handle_get gz path headers directory fs).build, fs)
    else
      Except.ok
        (Response.build
          { status_line := METHOD_NOT_ALLOWED_HEADER, headers := [], body := [] },
         fs)

/-- Spec-side transcription for C4: the Content Encoder scans the header
lines in order; the first line whose lowercasing begins with
`accept-encoding:` decides eligibility by splitting its value on commas,
trimming each token, and requiring an exact `gzip` token. -/
def sgScan : List (List Char) → Bool
  | [] => false
  | line :: rest =>
    if "accept-encoding:".data.isPrefixOf (rsToLower line) then
      ((splitComma (line.drop 16)).map rsTrim).any (fun enc => enc = "gzip".data)
    else sgScan rest

/-- Spec-side definition of gzip eligibility, to be compared with the
source-side `supports_gzip`. -/
def supportsGzipSpec (headers : List Char) : Bool :=
  sgScan (rsLines headers)

/-- Spec-side transcription for C5: scan the header lines in arrival order;
the first line whose lowercasing begins with `content-length:` supplies the
length as its second whitespace-delimited token parsed as a non-negative
integer; absence or parse failure yields zero. -/
def clScan : List (List Char) → Nat
  | [] => 0
  | line :: rest =>
    if "content-length:".data.isPrefixOf (rsToLower line) then
      match (splitWS line).get? 1 with
      | none => 0
      | some tok => (parseUsize tok).getD 0
    else clScan rest

/-- Spec-side definition of the declared body length, to be compared with
the source-side `contentLength`. -/
def contentLengthSpec (headers : List Char) : Nat :=
  clScan (rsLines headers)

/-- The values of all `Content-Length` entries of a response, in order. -/
def clEntries (r : Response) : List (List Char) :=
  (r.headers.filter (fun kv => kv.1 = "Content-Length".data)).map (fun kv => kv.2)

theorem strBytes_append (a b : List Char) :
    strBytes (a ++ b) = strBytes a ++ strBytes b := by
  induction a with
  | nil => rfl
  | cons c cs ih => simp [strBytes, ih]

theorem buildHeaders_eq (hs : List (List Char × List Char)) :
    buildHeaders hs =
      (hs.map (fun kv =>
        strBytes kv.1 ++ strBytes ": ".data ++ strBytes kv.2 ++ [13, 10])).flatten := by
  induction hs with
  | nil => rfl
  | cons kv rest ih =>
    obtain ⟨k, v⟩ := kv
    show strBytes (k ++ (": ".data ++ (v ++ "\r\n".data))) ++ buildHeaders rest = _
    rw [strBytes_append, strBytes_append, strBytes_append, ih,
        show strBytes "\r\n".data = [13, 10] from rfl]
    simp [List.append_assoc]

theorem clEntries_serve_echo (gz : List Nat → List Nat) (path headers : List Char) :
    clEntries (serve_echo gz path headers) =
      [(Nat.repr (serve_echo gz path headers).body.length).data] := by
  by_cases hg : supports_gzip headers = true
  · simp only [serve_echo, hg, if_true]
    rfl
  · simp only [serve_echo, hg]
    rfl

theorem clEntries_serve_user_agent (gz : List Nat → List Nat)
    (ua headers : List Char) :
    clEntries (serve_user_agent gz ua headers) =
      [(Nat.repr (serve_user_agent gz ua headers).body.length).data] := by
  by_cases hg : supports_gzip headers = true
  · simp only [serve_user_agent, hg, if_true]
    rfl
  · simp only [serve_user_agent, hg]
    rfl

theorem clEntries_serve_file (gz : List Nat → List Nat) (contents : List Nat)
    (headers : List Char) :
    clEntries (serve_file gz contents headers) =
      [(Nat.repr (serve_file gz contents headers).body.length).data] := by
  by_cases hg : supports_gzip headers = true
  · simp only [serve_file, hg, if_true]
    rfl
  · simp only [serve_file, hg]
    rfl

example : parseUsize "42".data = some 42 := by decide
example : parseUsize "+7".data = some 7 := by decide
example : parseUsize "".data = none := by decide
example : parseUsize "4x".data = none := by decide
example : rsLines "a\r\nb\r\n".data = ["a".data, "b".data] := by decide
example : splitWS "  GET  /  ".data = ["GET".data, "/".data] := by decide
example : strBytes "A/".data = [65, 47] := by decide

/-- C1 (amended): serializing a `Response` produces the stored status-line
bytes, then each header as `Key: Value` terminated by CRLF in insertion
order, then one further CRLF, then the raw body bytes.  Because the stored
status-line constant `OK_HEADER` itself already ends in a blank line, the
wire bytes for GET `/` with no request headers are the `200 OK` status line
followed by TWO blank CRLF lines (and no headers, empty struct body). -/
theorem C1_response_serialization :
    (∀ r : Response,
        r.build = strBytes r.status_line
          ++ (r.headers.map (fun kv =>
                strBytes kv.1 ++ strBytes ": ".data ++ strBytes kv.2 ++ [13, 10])).flatten
          ++ [13, 10] ++ r.body)
    ∧ (∀ (gz : List Nat → List Nat) (fs : FS) (d : List Char),
        handle_client gz fs d ("GET / HTTP/1.1\r\n\r\n".data)
          = Except.ok (strBytes ("HTTP/1.1 200 OK\r\n\r\n\r\n".data), fs)) := by
  constructor
  · intro r
    rw [Response.build, buildHeaders_eq]
  · intro gz fs d
    rfl

/-- C1 counterexample: for GET `/` with no request headers the wire bytes
are `HTTP/1.1 200 OK` CRLF CRLF CRLF, which is not the `200 OK` status line
followed by a single blank CRLF line. -/
theorem C1_counterexample :
    handle_client (fun b => b) [] ".".data ("GET / HTTP/1.1\r\n\r\n".data)
      = Except.ok (strBytes ("HTTP/1.1 200 OK\r\n\r\n\r\n".data), [])
    ∧ strBytes ("HTTP/1.1 200 OK\r\n\r\n\r\n".data)
      ≠ strBytes ("HTTP/1.1 200 OK\r\n\r\n".data) := by
  constructor
  · rfl
  · decide

/-- C2 counterexample: the stream `GET / HTTP/1.1` is truncated before the
request-line CRLF and has no header section at all, yet the connection is
not aborted: a full `200 OK` response is written to the socket. -/
theorem C2_counterexample :
    handle_client (fun b => b) [] ".".data ("GET / HTTP/1.1".data)
      = Except.ok (strBytes ("HTTP/1.1 200 OK\r\n\r\n\r\n".data), []) := by
  rfl

/-- C2 (amended): malformed or truncated request lines and header sections
never abort the connection — parsing is permissive (missing request-line
tokens become empty strings, end of stream ends the header section) and a
response is still written; the connection is aborted with no response
exactly when the stream holds fewer body bytes than the declared
Content-Length. -/
theorem C2_parse_never_aborts :
    ∀ (gz : List Nat → List Nat) (fs : FS) (d s : List Char),
      (handle_client gz fs d s).isOk = true ↔
        contentLength (parse_request s).1.2.2 ≤ (strBytes (parse_request s).2).length := by
  intro gz fs d s
  by_cases h : contentLength (parse_request s).1.2.2 ≤ (strBytes (parse_request s).2).length
  · simp only [handle_client, read_body, if_pos h]
    constructor
    · intro _
      exact h
    · intro _
      split
      · rfl
      · split
        · rfl
        · rfl
  · simp only [handle_client, read_body, if_neg h]
    constructor
    · intro hk
      simp [Except.isOk, Except.toBool] at hk
    · intro hc
      exact absurd hc h

/-- C3: a GET request for `/echo/{s}` without gzip negotiation yields status
200 with Content-Type `text/plain`, a body that is byte-identical to `s`
(no percent-decoding), and a Content-Length equal to the byte length of `s`. -/
theorem C3_echo_response :
    ∀ (gz : List Nat → List Nat) (s headers d : List Char) (fs : FS),
      supports_gzip headers = false →
      handle_get gz ("/echo/".data ++ s) headers d fs =
        { status_line := "HTTP/1.1 200 OK\r\n".data
          headers := [("Content-Type".data, "text/plain".data),
                      ("Content-Length".data, (Nat.repr (strBytes s).length).data)]
          body := strBytes s } := by
  intro gz s headers d fs h
  have h1 : ("/files/".data.isPrefixOf ("/echo/".data ++ s)) = false := rfl
  have h3 : ("/echo/".data.isPrefixOf ("/echo/".data ++ s)) = true := by
    rw [List.isPrefixOf_iff_prefix]
    exact List.prefix_append _ _
  have h2 : ¬(("/echo/".data ++ s) = "/user-agent".data) := by
    intro he
    have : ("/echo/".data ++ s).get? 1 = "/user-agent".data.get? 1 := by rw [he]
    simp at this
  simp only [handle_get, h1, h3, Bool.false_eq_true, if_false, if_true, if_neg h2]
  simp only [serve_echo, h, Bool.false_eq_true, if_false]
  rw [List.drop_left' (by rfl : "/echo/".data.length = 6)]

/-- C3 witness: the echo theorem at the concrete path `/echo/abc` with no
request headers. -/
theorem C3_echo_response_witness :
    supports_gzip [] = false ∧
    handle_get (fun b => b) ("/echo/".data ++ "abc".data) [] ".".data [] =
      { status_line := "HTTP/1.1 200 OK\r\n".data
        headers := [("Content-Type".data, "text/plain".data),
                    ("Content-Length".data, (Nat.repr (strBytes "abc".data).length).data)]
        body := strBytes "abc".data } :=
  ⟨by decide, C3_echo_response (fun b => b) "abc".data [] ".".data [] (by decide)⟩

theorem sgScan_eq_find (ls : List (List Char)) :
    (match ls.find? (fun line => "accept-encoding:".data.isPrefixOf (rsToLower line)) with
     | none => false
     | some line =>
       ((splitComma (line.drop 16)).map rsTrim).any (fun enc => enc = "gzip".data))
    = sgScan ls := by
  induction ls with
  | nil => rfl
  | cons a t ih =>
    by_cases h : ("accept-encoding:".data.isPrefixOf (rsToLower a)) = true
    · simp [List.find?_cons, h, sgScan]
    · simp only [List.find?_cons, h, Bool.false_eq_true, sgScan, if_false]
      simpa [h] using ih

theorem clScan_eq_find (ls : List (List Char)) :
    (match ls.find? (fun line => "content-length:".data.isPrefixOf (rsToLower line)) with
     | none => 0
     | some line =>
       match (splitWS line).get? 1 with
       | none => 0
       | some tok => (parseUsize tok).getD 0)
    = clScan ls := by
  induction ls with
  | nil => rfl
  | cons a t ih =>
    by_cases h : ("content-length:".data.isPrefixOf (rsToLower a)) = true
    · simp [List.find?_cons, h, clScan]
    · simp only [List.find?_cons, h, Bool.false_eq_true, clScan, if_false]
      simpa [h] using ih

/-- C4: gzip eligibility is exactly the spec's scan — first header line whose
lowercasing begins with `accept-encoding:`, value split on commas, tokens
trimmed, exact case-sensitive `gzip` token required — and when eligible the
echo, user-agent and file-GET responses carry `Content-Encoding: gzip` and a
Content-Length equal to the compressed body's byte length. -/
theorem C4_gzip_encoding :
    (∀ headers, supports_gzip headers = supportsGzipSpec headers)
    ∧ (∀ (gz : List Nat → List Nat) (path headers : List Char),
        supports_gzip headers = true →
        serve_echo gz path headers =
          { status_line := "HTTP/1.1 200 OK\r\n".data
            headers := [("Content-Type".data, "text/plain".data),
                        ("Content-Encoding".data, "gzip".data),
                        ("Content-Length".data,
                         (Nat.repr (gz (strBytes (path.drop 6))).length).data)]
            body := gz (strBytes (path.drop 6)) })
    ∧ (∀ (gz : List Nat → List Nat) (ua headers : List Char),
        supports_gzip headers = true →
        serve_user_agent gz ua headers =
          { status_line := "HTTP/1.1 200 OK\r\n".data
            headers := [("Content-Type".data, "text/plain".data),
                        ("Content-Encoding".data, "gzip".data),
                        ("Content-Length".data, (Nat.repr (gz (strBytes ua)).length).data)]
            body := gz (strBytes ua) })
    ∧ (∀ (gz : List Nat → List Nat) (path headers d : List Char) (fs : FS)
         (contents : List Nat),
        supports_gzip headers = true →
        "/files/".data.isPrefixOf path = true →
        fsLookup fs (pathJoin d (path.drop 7)) = some contents →
        handle_get gz path headers d fs =
          { status_line := "HTTP/1.1 200 OK\r\n".data
            headers := [("Content-Type".data, "application/octet-stream".data),
                        ("Content-Encoding".data, "gzip".data),
                        ("Content-Length".data, (Nat.repr (gz contents).length).data)]
            body := gz contents }) := by
  refine ⟨?_, ?_, ?_, ?_⟩
  · intro headers
    rw [supportsGzipSpec, ← sgScan_eq_find]
    rfl
  · intro gz path headers h
    simp only [serve_echo, h, if_true]
  · intro gz ua headers h
    simp only [serve_user_agent, h, if_true]
  · intro gz path headers d fs contents h hpre hlook
    simp only [handle_get, hpre, if_true, hlook, serve_file, h]

/-- C4 witness: the gzip branches at concrete inputs, with the compressor
instantiated by a concrete function. -/
theorem C4_gzip_encoding_witness :
    supports_gzip "Accept-Encoding: deflate, gzip\r\n".data = true ∧
    serve_echo (fun b => 31 :: 139 :: b) "/echo/hi".data
        "Accept-Encoding: deflate, gzip\r\n".data =
      { status_line := "HTTP/1.1 200 OK\r\n".data
        headers := [("Content-Type".data, "text/plain".data),
                    ("Content-Encoding".data, "gzip".data),
                    ("Content-Length".data,
                     (Nat.repr ((fun b => 31 :: 139 :: b)
                        (strBytes ("/echo/hi".data.drop 6))).length).data)]
        body := (fun b => 31 :: 139 :: b) (strBytes ("/echo/hi".data.drop 6)) } ∧
    handle_get (fun b => 31 :: 139 :: b) "/files/f".data
        "Accept-Encoding: deflate, gzip\r\n".data ".".data
        [("./f".data, [1, 2, 3])] =
      { status_line := "HTTP/1.1 200 OK\r\n".data
        headers := [("Content-Type".data, "application/octet-stream".data),
                    ("Content-Encoding".data, "gzip".data),
                    ("Content-Length".data,
                     (Nat.repr ((fun b => 31 :: 139 :: b) [1, 2, 3]).length).data)]
        body := (fun b => 31 :: 139 :: b) [1, 2, 3] } :=
  ⟨by decide,
   C4_gzip_encoding.2.1 (fun b => 31 :: 139 :: b) "/echo/hi".data
     "Accept-Encoding: deflate, gzip\r\n".data (by decide),
   C4_gzip_encoding.2.2.2 (fun b => 31 :: 139 :: b) "/files/f".data
     "Accept-Encoding: deflate, gzip\r\n".data ".".data
     [("./f".data, [1, 2, 3])] [1, 2, 3] (by decide) (by decide) (by decide)⟩

/-- C5: the body length is computed exactly as the spec says — the first
header line (in arrival order) whose lowercasing begins with
`content-length:`, second whitespace-delimited token, parsed as a
non-negative integer, and zero on absence or failure — and a successfully
read body has exactly that many bytes. -/
theorem C5_content_length_extraction :
    (∀ headers, contentLength headers = contentLengthSpec headers)
    ∧ (∀ (headers rest : List Char) (body : List Nat),
        read_body headers rest = Except.ok body →
        body.length = contentLengthSpec headers) := by
  constructor
  · intro headers
    rw [contentLengthSpec, ← clScan_eq_find]
    rfl
  · intro headers rest body hok
    rw [read_body] at hok
    split at hok
    · rename_i hle
      have hb : body = (strBytes rest).take (contentLength headers) := by
        injection hok with h
        exact h.symm
      rw [hb, List.length_take]
      rw [contentLengthSpec, ← clScan_eq_find]
      simp [contentLength] at hle ⊢
      omega
    · exact absurd hok (by simp)

/-- C5 witness: a `Content-Length: 3` header against a six-byte remainder
yields a three-byte body. -/
theorem C5_content_length_extraction_witness :
    read_body "Content-Length: 3\r\n".data "abcdef".data = Except.ok [97, 98, 99] ∧
    ([97, 98, 99] : List Nat).length =
      contentLengthSpec "Content-Length: 3\r\n".data :=
  ⟨by rfl,
   C5_content_length_extraction.2 "Content-Length: 3\r\n".data "abcdef".data
     [97, 98, 99] (by rfl)⟩

/-- C6: when the declared Content-Length is positive and the stream holds
enough bytes, exactly that many body bytes are read; when the stream ends
short of the declared length, the body read fails and the whole connection
handler aborts with no response bytes produced. -/
theorem C6_exact_body_read :
    (∀ headers rest : List Char,
        contentLength headers ≤ (strBytes rest).length →
        read_body headers rest =
            Except.ok ((strBytes rest).take (contentLength headers))
          ∧ ((strBytes rest).take (contentLength headers)).length
              = contentLength headers)
    ∧ (∀ headers rest : List Char,
        (strBytes rest).length < contentLength headers →
        read_body headers rest = Except.error ())
    ∧ (∀ (gz : List Nat → List Nat) (fs : FS) (d s : List Char),
        (strBytes (parse_request s).2).length
            < contentLength (parse_request s).1.2.2 →
        handle_client gz fs d s = Except.error ()) := by
  refine ⟨?_, ?_, ?_⟩
  · intro headers rest hle
    constructor
    · rw [read_body, if_pos hle]
    · rw [List.length_take]
      omega
  · intro headers rest hlt
    rw [read_body, if_neg (by omega)]
  · intro gz fs d s hlt
    have hrb : read_body (parse_request s).1.2.2 (parse_request s).2
        = Except.error () := by
      rw [read_body, if_neg (by omega)]
    simp only [handle_client, hrb]

/-- C6 witness: a declared length of 2 against four available bytes reads
exactly two; a declared length of 5 against two available bytes aborts the
connection with no response. -/
theorem C6_exact_body_read_witness :
    (read_body "Content-Length: 2\r\n".data "abcd".data = Except.ok [97, 98]
      ∧ (([97, 98] : List Nat)).length = 2)
    ∧ read_body "Content-Length: 5\r\n".data "ab".data = Except.error ()
    ∧ handle_client (fun b => b) [] ".".data
        ("POST /files/x HTTP/1.1\r\nContent-Length: 5\r\n\r\nab".data)
      = Except.error () :=
  ⟨C6_exact_body_read.1 "Content-Length: 2\r\n".data "abcd".data (by decide),
   C6_exact_body_read.2.1 "Content-Length: 5\r\n".data "ab".data (by decide),
   C6_exact_body_read.2.2 (fun b => b) [] ".".data
     ("POST /files/x HTTP/1.1\r\nContent-Length: 5\r\n\r\nab".data) (by decide)⟩

/-- C7: a request whose method is neither GET nor POST receives a
`405 Method Not Allowed` response with no headers and an empty body (once
the body read succeeds), and a POST to any path not under `/files/`
receives the same 405 response. -/
theorem C7_method_not_allowed :
    (∀ (gz : List Nat → List Nat) (fs : FS) (d s : List Char),
        (parse_request s).1.1 ≠ "GET".data →
        (parse_request s).1.1 ≠ "POST".data →
        contentLength (parse_request s).1.2.2 ≤ (strBytes (parse_request s).2).length →
        handle_client gz fs d s =
          Except.ok
            (Response.build
              { status_line := METHOD_NOT_ALLOWED_HEADER, headers := [], body := [] },
             fs))
    ∧ (∀ (path : List Char) (body : List Nat) (d : List Char) (fs : FS),
        "/files/".data.isPrefixOf path = false →
        handle_post path body d fs =
          ({ status_line := METHOD_NOT_ALLOWED_HEADER, headers := [], body := [] },
           fs)) := by
  constructor
  · intro gz fs d s hget hpost hlen
    simp only [handle_client, read_body, if_pos hlen, if_neg hpost, if_neg hget]
  · intro path body d fs hpre
    simp only [handle_post, hpre, Bool.false_eq_true, if_false]

/-- C7 witness: a PUT request and a POST outside `/files/` both produce the
405 response. -/
theorem C7_method_not_allowed_witness :
    handle_client (fun b => b) [] ".".data ("PUT / HTTP/1.1\r\n\r\n".data) =
      Except.ok
        (Response.build
          { status_line := METHOD_NOT_ALLOWED_HEADER, headers := [], body := [] },
         [])
    ∧ handle_post "/echo/x".data [1, 2] ".".data [] =
        ({ status_line := METHOD_NOT_ALLOWED_HEADER, headers := [], body := [] },
         []) :=
  ⟨C7_method_not_allowed.1 (fun b => b) [] ".".data ("PUT / HTTP/1.1\r\n\r\n".data)
     (by decide) (by decide) (by decide),
   C7_method_not_allowed.2 "/echo/x".data [1, 2] ".".data [] (by decide)⟩

/-- C8: every response produced by the GET or POST handler that carries a
non-empty body has exactly one Content-Length header, whose value is the
decimal byte length of the body as serialized (the compressed length when
compression was applied). -/
theorem C8_content_length_invariant :
    ∀ (gz : List Nat → List Nat) (path headers d : List Char) (fs : FS)
      (body : List Nat),
      ((handle_get gz path headers d fs).body ≠ [] →
        clEntries (handle_get gz path headers d fs) =
          [(Nat.repr (handle_get gz path headers d fs).body.length).data])
      ∧ ((handle_post path body d fs).1.body ≠ [] →
        clEntries (handle_post path body d fs).1 =
          [(Nat.repr (handle_post path body d fs).1.body.length).data]) := by
  intro gz path headers d fs body
  constructor
  · by_cases hf : ("/files/".data.isPrefixOf path) = true
    · cases hlook : fsLookup fs (pathJoin d (path.drop 7)) with
      | some contents =>
        simp only [handle_get, hf, if_true, hlook]
        intro _
        exact clEntries_serve_file gz contents headers
      | none =>
        simp only [handle_get, hf, if_true, hlook]
        intro hb
        exact absurd rfl hb
    · by_cases hua : path = "/user-agent".data
      · simp only [handle_get, hf, Bool.false_eq_true, if_false, hua, if_pos rfl]
        intro _
        exact clEntries_serve_user_agent gz (extract_user_agent headers) headers
      · by_cases he : ("/echo/".data.isPrefixOf path) = true
        · simp only [handle_get, hf, Bool.false_eq_true, if_false, if_neg hua, he,
            if_true]
          intro _
          exact clEntries_serve_echo gz path headers
        · by_cases hr : path = "/".data
          · simp only [handle_get, hf, he, Bool.false_eq_true, if_false, if_neg hua,
              hr, if_pos rfl]
            intro hb
            exact absurd rfl hb
          · simp only [handle_get, hf, he, Bool.false_eq_true, if_false, if_neg hua,
              if_neg hr]
            intro hb
            exact absurd rfl hb
  · by_cases hf : ("/files/".data.isPrefixOf path) = true
    · simp only [handle_post, hf, if_true]
      intro hb
      exact absurd rfl hb
    · simp only [handle_post, hf, Bool.false_eq_true, if_false]
      intro hb
      exact absurd rfl hb

/-- C8 witness: the invariant at a concrete echo response with a non-empty
body. -/
theorem C8_content_length_invariant_witness :
    (handle_get (fun b => b) "/echo/a".data [] ".".data []).body ≠ []
    ∧ clEntries (handle_get (fun b => b) "/echo/a".data [] ".".data []) =
        [(Nat.repr (handle_get (fun b => b) "/echo/a".data [] ".".data
            []).body.length).data] :=
  ⟨by decide,
   (C8_content_length_invariant (fun b => b) "/echo/a".data [] ".".data [] []).1
     (by decide)⟩

/-- C9: the content encoder runs even on an empty handler body — a GET
`/user-agent` request with no User-Agent line but gzip negotiated gets a
body that is the compression of the empty byte sequence, a
`Content-Encoding: gzip` header, and a Content-Length equal to the length of
that compressed output, which is non-zero whenever the compressor emits any
framing bytes for empty input. -/
theorem C9_empty_user_agent_gzip :
    ∀ (gz : List Nat → List Nat) (headers d : List Char) (fs : FS),
      (∀ l ∈ rsLines headers,
        ("user-agent:".data.isPrefixOf (rsToLower l)) = false) →
      supports_gzip headers = true →
      gz [] ≠ [] →
      handle_get gz "/user-agent".data headers d fs =
        { status_line := "HTTP/1.1 200 OK\r\n".data
          headers := [("Content-Type".data, "text/plain".data),
                      ("Content-Encoding".data, "gzip".data),
                      ("Content-Length".data, (Nat.repr (gz []).length).data)]
          body := gz [] }
      ∧ (gz []).length ≠ 0 := by
  intro gz headers d fs hnoua hg hne
  have hua : extract_user_agent headers = [] := by
    rw [extract_user_agent]
    have : (rsLines headers).find?
        (fun line => "user-agent:".data.isPrefixOf (rsToLower line)) = none := by
      rw [List.find?_eq_none]
      intro x hx
      simp [hnoua x hx]
    rw [this]
  constructor
  · have h1 : ("/files/".data.isPrefixOf "/user-agent".data) = false := by decide
    simp only [handle_get, h1, Bool.false_eq_true, if_false, if_pos rfl, hua]
    simp only [serve_user_agent, hg, if_true]
    rfl
  · intro hlen
    exact hne (List.length_eq_zero.mp hlen)

/-- C9 witness: with the compressor returning a two-byte frame on empty
input and a gzip-accepting header block with no User-Agent line, the
response body is that frame and the Content-Length is its length. -/
theorem C9_empty_user_agent_gzip_witness :
    (∀ l ∈ rsLines "Accept-Encoding: gzip\r\n".data,
      ("user-agent:".data.isPrefixOf (rsToLower l)) = false)
    ∧ handle_get (fun _ => [31, 139]) "/user-agent".data
        "Accept-Encoding: gzip\r\n".data ".".data [] =
      { status_line := "HTTP/1.1 200 OK\r\n".data
        headers := [("Content-Type".data, "text/plain".data),
                    ("Content-Encoding".data, "gzip".data),
                    ("Content-Length".data,
                     (Nat.repr (([31, 139] : List Nat)).length).data)]
        body := [31, 139] }
    ∧ (([31, 139] : List Nat)).length ≠ 0 :=
  ⟨by decide,
   (C9_empty_user_agent_gzip (fun _ => [31, 139]) "Accept-Encoding: gzip\r\n".data
     ".".data [] (by decide) (by decide) (by decide)).1,
   (C9_empty_user_agent_gzip (fun _ => [31, 139]) "Accept-Encoding: gzip\r\n".data
     ".".data [] (by decide) (by decide) (by decide)).2⟩

/-- C10: when the filename extracted from `/files/{name}` begins with a
slash, `Path::join` discards the configured directory entirely, so the
resolved path is the filename alone and both the file-GET and the file-POST
behavior are identical under any two configured directories. -/
theorem C10_absolute_filename_escapes_directory :
    ∀ fname : List Char, fname.head? = some '/' →
      (∀ d, pathJoin d fname = fname)
      ∧ (∀ (gz : List Nat → List Nat) (headers : List Char) (fs : FS)
           (d1 d2 : List Char),
          handle_get gz ("/files/".data ++ fname) headers d1 fs =
            handle_get gz ("/files/".data ++ fname) headers d2 fs)
      ∧ (∀ (body : List Nat) (fs : FS) (d1 d2 : List Char),
          handle_post ("/files/".data ++ fname) body d1 fs =
            handle_post ("/files/".data ++ fname) body d2 fs) := by
  intro fname habs
  have hjoin : ∀ d, pathJoin d fname = fname := by
    intro d
    rw [pathJoin, if_pos habs]
  have hpre : ("/files/".data.isPrefixOf ("/files/".data ++ fname)) = true := by
    rw [List.isPrefixOf_iff_prefix]
    exact List.prefix_append _ _
  have hdrop : ("/files/".data ++ fname).drop 7 = fname :=
    List.drop_left' (by rfl : "/files/".data.length = 7)
  refine ⟨hjoin, ?_, ?_⟩
  · intro gz headers fs d1 d2
    simp only [handle_get, hpre, if_true, hdrop, hjoin]
  · intro body fs d1 d2
    simp only [handle_post, hpre, if_true, hdrop, hjoin]

/-- C10 witness: with the absolute filename `/tmp/x`, the resolved path
ignores the directory and GET/POST behave identically under the directories
`dirA` and `dirB`. -/
theorem C10_absolute_filename_escapes_directory_witness :
    pathJoin "dirA".data "/tmp/x".data = "/tmp/x".data
    ∧ handle_get (fun b => b) ("/files/".data ++ "/tmp/x".data) []
        "dirA".data [("/tmp/x".data, [7])] =
      handle_get (fun b => b) ("/files/".data ++ "/tmp/x".data) []
        "dirB".data [("/tmp/x".data, [7])]
    ∧ handle_post ("/files/".data ++ "/tmp/x".data) [9] "dirA".data [] =
        handle_post ("/files/".data ++ "/tmp/x".data) [9] "dirB".data [] :=
  ⟨(C10_absolute_filename_escapes_directory "/tmp/x".data (by decide)).1 "dirA".data,
   (C10_absolute_filename_escapes_directory "/tmp/x".data (by decide)).2.1
     (fun b => b) [] [("/tmp/x".data, [7])] "dirA".data "dirB".data,
   (C10_absolute_filename_escapes_directory "/tmp/x".data (by decide)).2.2
     [9] [] "dirA".data "dirB".data⟩
